import Mathlib

/-!
Verification of the session-memory chat backend (src/main.py) against its
natural-language specification.

The embedding models:
* `Turn`        — one `{"role": ..., "text": ...}` record stored in the log;
* `Cell`        — the `messages` column of one row of the `sessions` table,
                  seen through `json.loads`: a NULL/empty string (falsy),
                  a well-formed serialized list of turns, or a malformed
                  value on which `json.loads` raises;
* `Store`       — the `sessions` table: an association list keyed by
                  `session_id` (the PRIMARY KEY guarantees at most one row
                  per id, which `upsert` maintains);
* `get_messages`, `save_message` — `SessionManager.get_messages` /
  `SessionManager.save_message` (src/main.py lines 62-84); exceptions
  (e.g. `json.JSONDecodeError`) are modelled as `Except.error` carrying
  the exception text `str(e)`;
* `chat_with_ollama` — the context construction and LLM call
  (src/main.py lines 94-145); the external `ollama_client.chat` call is a
  parameter `llm` returning `Except String String` (errors carry `str(e)`);
* `chat`        — the `POST /chat` handler (src/main.py lines 152-208);
  `HTTPException(400, ...)` is `ChatResult.clientError`, the outer
  `except Exception` that raises `HTTPException(500, detail=str(e))` is
  `ChatResult.serverError`, and a normal JSON body is `ChatResult.ok`;
* `token_urlsafe` — `secrets.token_urlsafe(32)`: base64url encoding of the
  random bytes with padding stripped, as a function of the drawn bytes.
-/

/-- One conversation turn: the dict `{"role": role, "text": text}` built in
`SessionManager.save_message`. -/
structure Turn where
  role : String
  text : String
deriving DecidableEq

/-- The `messages` column of a `sessions` row, as observed by
`get_messages`: `null` is a NULL or empty string (falsy in
`if row and row["messages"]`), `ok msgs` is a JSON string that
`json.loads` decodes to `msgs`, and `corrupt e` is a malformed value on
which `json.loads` raises an exception whose `str` is `e`. -/
inductive Cell where
  | null : Cell
  | ok (msgs : List Turn) : Cell
  | corrupt (errText : String) : Cell
deriving DecidableEq

/-- The `sessions` table: rows keyed by `session_id`.  The PRIMARY KEY
constraint means at most one row per id; `upsert` preserves that. -/
abbrev Store := List (String × Cell)

/-- `SELECT messages FROM sessions WHERE session_id = ?` followed by
`fetchone()`: the row for `sid`, if any. -/
def lookupCell : Store → String → Option Cell
  | [], _ => none
  | (k, c) :: rest, sid => if k = sid then some c else lookupCell rest sid

/-- `INSERT ... ON CONFLICT(session_id) DO UPDATE SET messages=?`:
create the row if absent, otherwise replace its `messages` value. -/
def upsert : Store → String → Cell → Store
  | [], sid, c => [(sid, c)]
  | (k, c0) :: rest, sid, c =>
    if k = sid then (sid, c) :: rest else (k, c0) :: upsert rest sid c

/-- Python's slice `xs[-limit:]` for a non-negative `limit`.
For `limit = 0` the index `-0` is `0`, so `xs[-0:] = xs[0:]` is the whole
list; for `limit > 0` it is the suffix of the last `min limit xs.length`
elements. -/
def pySliceLast (xs : List Turn) (limit : Nat) : List Turn :=
  if limit = 0 then xs else xs.drop (xs.length - limit)

/-- `SessionManager.get_messages(session_id, limit)` (src/main.py 62-73).
No row, or a falsy `messages` value, yields `[]`; a malformed value makes
`json.loads` raise (`Except.error` with the exception text); otherwise the
slice `messages[-limit:]` is returned.  The Python default for `limit` is
`20`; callers of the embedding pass it explicitly. -/
def get_messages (store : Store) (sid : String) (limit : Nat) :
    Except String (List Turn) :=
  match lookupCell store sid with
  | none => .ok []
  | some .null => .ok []
  | some (.corrupt e) => .error e
  | some (.ok msgs) => .ok (pySliceLast msgs limit)

/-- `SessionManager.save_message(session_id, role, text)` (src/main.py
75-84): re-read the history via `self.get_messages(session_id)` — with the
DEFAULT `limit=20` — append the new turn, and upsert the result as the new
full log.  An exception from the read propagates. -/
def save_message (store : Store) (sid role text : String) :
    Except String Store :=
  match get_messages store sid 20 with
  | .error e => .error e
  | .ok messages =>
      .ok (upsert store sid (.ok (messages ++ [⟨role, text⟩])))

/-- A sequence of `save_message` calls on one session, stopping at the
first exception. -/
def appendAll (store : Store) (sid : String) :
    List (String × String) → Except String Store
  | [] => .ok store
  | (r, t) :: rest =>
    match save_message store sid r t with
    | .error e => .error e
    | .ok st => appendAll st sid rest

/-- One `{"role": ..., "content": ...}` block of the context sent to the
LLM. -/
structure Msg where
  role : String
  content : String
deriving DecidableEq

/-- The fixed system instruction appended first in `chat_with_ollama`
(src/main.py 106-113). -/
def persona : String :=
  "You are nifty-bot, a friendly AI agent inspired by the White Rabbit from " ++
  "Alice in Wonderland. You adore rabbit-themed NFTs on Ethereum L1 and L2. " ++
  "You often worry about the time. Be short, conversational, and rabbit-themed."

/-- The `messages` array built in `chat_with_ollama` (src/main.py
103-126): system block, then the loaded memory (role/text mapped to
role/content), then the new user message. -/
def buildContext (memory : List Turn) (userMessage : String) : List Msg :=
  ⟨"system", persona⟩ ::
    (memory.map (fun m => ⟨m.role, m.text⟩) ++ [⟨"user", userMessage⟩])

/-- `chat_with_ollama(session_id, user_message)` (src/main.py 94-145):
load memory with `get_messages(session_id)` (default `limit=20`), build
the context, and call the external client.  The inner
`try/except ... raise` re-raises the client's exception unchanged, so the
call is just `llm`; an exception from `get_messages` propagates. -/
def chat_with_ollama (store : Store) (sid userMessage : String)
    (llm : List Msg → Except String String) : Except String String :=
  match get_messages store sid 20 with
  | .error e => .error e
  | .ok memory => llm (buildContext memory userMessage)

/-- The parsed JSON body of a `/chat` request: `data.get("session_id")`
and `data.get("message", ...)`. -/
structure ChatRequest where
  session_id : Option String
  message : Option String

/-- Python's `str.strip()` with no argument: remove leading and trailing
whitespace. -/
def pyStrip (s : String) : String :=
  String.mk
    (((s.data.dropWhile Char.isWhitespace).reverse.dropWhile
        Char.isWhitespace).reverse)

/-- The session id used by the handler: `if not session_id:` allocates a
new one, so both an absent id and an empty string are replaced by the
freshly generated token (src/main.py 182-184). -/
def resolveSid (sidOpt : Option String) (newId : String) : String :=
  match sidOpt with
  | none => newId
  | some s => if s = "" then newId else s

/-- The handler's observable outcome: a normal 200 JSON body
`{"response": ..., "session_id": ...}`, the 400 `HTTPException` for an
empty message, or the 500 `HTTPException(status_code=500, detail=str(e))`
raised by the outer `except Exception` handler. -/
inductive ChatResult where
  | ok (response : String) (session_id : String) : ChatResult
  | clientError (detail : String) : ChatResult
  | serverError (detail : String) : ChatResult
deriving DecidableEq

/-- The soft-failure reply returned when `chat_with_ollama` raises
(src/main.py 192-195). -/
def fallbackReply : String := "Sorry, I encountered an error. Please try again!"

/-- The `POST /chat` handler (src/main.py 152-208).
`body` is the result of `await request.json()`: a parse failure is an
exception reaching the outer `except Exception`, hence
`serverError str(e)`.  The message is `data.get("message", "").strip()`;
an empty result raises the 400 (re-raised by `except HTTPException`).
Any exception from `chat_with_ollama` — store read included — is caught
and turned into the fallback reply.  Exceptions from the two
`save_message` calls reach the outer handler as `serverError str(e)`;
the returned `Store` is the table state when the handler finishes. -/
def chat (store : Store) (body : Except String ChatRequest) (newId : String)
    (llm : List Msg → Except String String) : ChatResult × Store :=
  match body with
  | .error e => (.serverError e, store)
  | .ok data =>
    let message := pyStrip (data.message.getD "")
    if message = "" then
      (.clientError "message required", store)
    else
      let sid := resolveSid data.session_id newId
      match chat_with_ollama store sid message llm with
      | .error _ => (.ok fallbackReply sid, store)
      | .ok reply =>
        match save_message store sid "user" message with
        | .error e => (.serverError e, store)
        | .ok store1 =>
          match save_message store1 sid "assistant" reply with
          | .error e => (.serverError e, store1)
          | .ok store2 => (.ok reply sid, store2)

/-- The base64url alphabet used by `base64.urlsafe_b64encode`. -/
def b64urlAlphabet : List Char :=
  "ABCDEFGHIJKLMNOPQRSTUVWXYZabcdefghijklmnopqrstuvwxyz0123456789-_".toList

/-- Digit `n` of the base64url alphabet. -/
def b64Char (n : Nat) : Char := b64urlAlphabet.getD n 'A'

/-- base64url encoding of a byte sequence with the `=` padding stripped,
as `base64.urlsafe_b64encode(b).rstrip(b"=")` produces it: each group of
3 bytes yields 4 digits, a trailing single byte yields 2 digits and a
trailing pair yields 3. -/
def b64urlEncode : List Nat → List Char
  | [] => []
  | [a] => [b64Char (a / 4), b64Char (a % 4 * 16)]
  | [a, b] =>
      [b64Char (a / 4), b64Char (a % 4 * 16 + b / 16), b64Char (b % 16 * 4)]
  | a :: b :: c :: rest =>
      b64Char (a / 4) :: b64Char (a % 4 * 16 + b / 16) ::
        b64Char (b % 16 * 4 + c / 64) :: b64Char (c % 64) :: b64urlEncode rest

/-- `secrets.token_urlsafe(nbytes)` as a function of the `nbytes` random
bytes drawn from `os.urandom`: their base64url encoding without padding.
The handler calls it with 32 bytes (src/main.py 183). -/
def token_urlsafe (randomBytes : List Nat) : String :=
  String.mk (b64urlEncode randomBytes)

/-- Length of the padding-free base64url encoding of `n` bytes. -/
def b64Len (n : Nat) : Nat :=
  4 * (n / 3) + (if n % 3 = 0 then 0 else n % 3 + 1)

/-!
Interleaving model of concurrent `save_message` callers.

`save_message` is a read-modify-write in two separate SQLite
transactions: `self.get_messages(session_id)` opens and closes one
connection, then the upsert runs on a second connection.  Nothing in the
code serializes the pair, so between a caller's read and its write other
callers may read or write the same row.  A thread is therefore modelled
with two atomic phases — the read (which snapshots the history it got)
and the write (which upserts snapshot + its own turn) — and a schedule
says whose phase runs next.
-/

/-- One pending `save_message(sid, role, text)` call. -/
structure PendingAppend where
  sid : String
  role : String
  text : String

/-- How far a `save_message` caller has progressed: not yet read, read
done holding the returned history snapshot, or finished. -/
inductive Phase where
  | start : Phase
  | readDone (snapshot : List Turn) : Phase
  | finished : Phase

/-- A `save_message` caller together with its progress. -/
structure ThreadState where
  op : PendingAppend
  phase : Phase

/-- Run one atomic phase of one caller against the current table: the
read executes `get_messages(sid)` (default `limit=20`) and snapshots the
result — a raised exception ends the thread with no write — and the
write upserts snapshot + the caller's turn as the new full log. -/
def stepThread (store : Store) (t : ThreadState) : Store × ThreadState :=
  match t.phase with
  | .start =>
    match get_messages store t.op.sid 20 with
    | .error _ => (store, { t with phase := .finished })
    | .ok snap => (store, { t with phase := .readDone snap })
  | .readDone snap =>
    (upsert store t.op.sid (.ok (snap ++ [⟨t.op.role, t.op.text⟩])),
      { t with phase := .finished })
  | .finished => (store, t)

/-- Execute the schedule: each entry names the caller whose next atomic
phase runs.  Returns the final table. -/
def runSched : Store → List ThreadState → List Nat → Store
  | store, _, [] => store
  | store, threads, i :: rest =>
    match threads.get? i with
    | none => runSched store threads rest
    | some t =>
      let p := stepThread store t
      runSched p.1 (threads.set i p.2) rest

/-!
Auxiliary lemmas (shared infrastructure for the claim theorems).
-/

theorem b64urlEncode_length : ∀ l : List Nat, (b64urlEncode l).length = b64Len l.length
  | [] => by simp [b64urlEncode, b64Len]
  | [a] => by simp [b64urlEncode, b64Len]
  | [a, b] => by simp [b64urlEncode, b64Len]
  | a :: b :: c :: rest => by
      have ih := b64urlEncode_length rest
      simp only [b64urlEncode, List.length_cons, b64Len] at ih ⊢
      split_ifs at ih ⊢ <;> omega

theorem token_urlsafe_length (rnd : List Nat) :
    (token_urlsafe rnd).length = b64Len rnd.length :=
  b64urlEncode_length rnd

/-!
Claim theorems.
-/

/-- Claim C1 (refuted — code bug): appending N turns from an empty store
and reading with limit ≥ N should return all N turns, the stored log never
being truncated.  The code truncates: `save_message` re-reads history with
the default `limit=20` before writing it back, so after 22 appends the
stored log holds only 21 turns while 22 were appended. -/
theorem append22_truncates_log_to_21 :
    (appendAll [] "s" (List.replicate 22 ("user", "x"))).map
        (fun st => (get_messages st "s" 22).map List.length)
      = Except.ok (Except.ok 21)
    ∧ (List.replicate 22 (("user", "x") : String × String)).length = 22 := by
  exact ⟨rfl, rfl⟩

/-- Claim C9 (refuted — code bug): concurrent `save_message` callers on
one session are supposed to be serialized so no turn is lost.  The
read-modify-write spans two SQLite connections with no lock: running A
and B serially (schedule read-write-read-write) keeps both turns, but the
interleaving read-read-write-write loses turn A — the final log has 1
turn instead of 2. -/
theorem concurrent_appends_lose_update :
    get_messages
        (runSched [] [⟨⟨"s", "user", "A"⟩, .start⟩, ⟨⟨"s", "user", "B"⟩, .start⟩]
          [0, 0, 1, 1]) "s" 20
      = .ok [⟨"user", "A"⟩, ⟨"user", "B"⟩]
    ∧ get_messages
        (runSched [] [⟨⟨"s", "user", "A"⟩, .start⟩, ⟨⟨"s", "user", "B"⟩, .start⟩]
          [0, 1, 0, 1]) "s" 20
      = .ok [⟨"user", "B"⟩] := by
  exact ⟨rfl, rfl⟩

/-- Claim C2 (counterexample): a corrupted serialized log read during
context building does NOT produce a server error — the exception from
`get_messages` is caught by the `except` around `chat_with_ollama` and
converted into the soft-fallback reply, a normal 200 response. -/
theorem corrupt_read_yields_fallback_not_500 :
    chat [("s", Cell.corrupt "Expecting value: line 1 column 1 (char 0)")]
        (.ok ⟨some "s", some "hi"⟩) "fresh" (fun _ => .ok "a quick reply")
      = (.ok fallbackReply "s",
         [("s", Cell.corrupt "Expecting value: line 1 column 1 (char 0)")]) := by
  exact rfl

/-- Claim C2 (amended): when the stored log for the session is corrupted,
the handler returns the soft-fallback reply with the session id — the
same path as an LLM failure, not a 500 — and the store is unchanged;
the result does not depend on the LLM at all, so the corruption is never
passed on as an empty history, and no turn is appended. -/
theorem corrupt_read_soft_fallback (store : Store) (sid msg nid e : String)
    (llm : List Msg → Except String String)
    (hcell : lookupCell store sid = some (Cell.corrupt e))
    (hmsg : pyStrip msg ≠ "") (hsid : sid ≠ "") :
    chat store (.ok ⟨some sid, some msg⟩) nid llm
      = (.ok fallbackReply sid, store) := by
  simp [chat, resolveSid, chat_with_ollama, get_messages, hcell, hmsg, hsid]

/-- Claim C2 (witness): the amended theorem at a concrete corrupted
store. -/
theorem corrupt_read_soft_fallback_witness :
    chat [("s", Cell.corrupt "bad json")] (.ok ⟨some "s", some "hello"⟩) "n"
        (fun _ => .ok "r")
      = (.ok fallbackReply "s", [("s", Cell.corrupt "bad json")]) :=
  corrupt_read_soft_fallback [("s", Cell.corrupt "bad json")] "s" "hello" "n"
    "bad json" (fun _ => .ok "r") rfl (by decide) (by decide)

/-- Claim C6: a missing, empty or whitespace-only message is rejected
with the 400 client error before any Store or LLM interaction — the
result holds for every LLM and returns the store unchanged. -/
theorem empty_message_rejected_400 (store : Store) (sidOpt : Option String)
    (msgOpt : Option String) (nid : String)
    (llm : List Msg → Except String String)
    (h : pyStrip (msgOpt.getD "") = "") :
    chat store (.ok ⟨sidOpt, msgOpt⟩) nid llm
      = (.clientError "message required", store) := by
  simp [chat, h]

/-- Claim C6 (witness): a whitespace-only message on an empty store. -/
theorem empty_message_rejected_400_witness :
    chat [] (.ok ⟨none, some "   "⟩) "n" (fun _ => .ok "r")
      = (.clientError "message required", []) :=
  empty_message_rejected_400 [] none (some "   ") "n" (fun _ => .ok "r")
    (by decide)

/-- Claim C10: with `limit = 0`, `get_messages` returns the ENTIRE stored
log, not zero turns — Python's `messages[-0:]` is `messages[0:]`, the
whole list. -/
theorem limit_zero_returns_whole_log (store : Store) (sid : String)
    (log : List Turn) (hcell : lookupCell store sid = some (Cell.ok log))
    (hne : log ≠ []) :
    get_messages store sid 0 = .ok log := by
  simp [get_messages, hcell, pySliceLast]

/-- Claim C10 (witness): a two-turn log read with `limit = 0` comes back
whole. -/
theorem limit_zero_returns_whole_log_witness :
    get_messages [("s", Cell.ok [⟨"user", "a"⟩, ⟨"assistant", "b"⟩])] "s" 0
      = .ok [⟨"user", "a"⟩, ⟨"assistant", "b"⟩] :=
  limit_zero_returns_whole_log _ "s" [⟨"user", "a"⟩, ⟨"assistant", "b"⟩]
    rfl (by decide)

/-- Claim C3: when the context build succeeds but the LLM call fails, no
turn is appended — the store comes back unchanged — and the handler
returns the non-empty fallback reply with the (possibly fresh) session
id as a normal response. -/
theorem llm_failure_leaves_log_and_falls_back (store : Store)
    (sidOpt : Option String) (msg nid err : String) (mem : List Turn)
    (llm : List Msg → Except String String)
    (hmsg : pyStrip msg ≠ "")
    (hread : get_messages store (resolveSid sidOpt nid) 20 = .ok mem)
    (hllm : llm (buildContext mem (pyStrip msg)) = .error err) :
    chat store (.ok ⟨sidOpt, some msg⟩) nid llm
      = (.ok fallbackReply (resolveSid sidOpt nid), store)
    ∧ fallbackReply ≠ "" := by
  refine ⟨?_, by decide⟩
  simp [chat, hmsg, chat_with_ollama, hread, hllm]

/-- Claim C3 (witness): a failing LLM on an empty store with an explicit
session id. -/
theorem llm_failure_leaves_log_and_falls_back_witness :
    chat [] (.ok ⟨some "sess", some "hi"⟩) "n" (fun _ => Except.error "boom")
      = (.ok fallbackReply (resolveSid (some "sess") "n"), [])
    ∧ fallbackReply ≠ "" :=
  llm_failure_leaves_log_and_falls_back [] (some "sess") "hi" "n" "boom" []
    (fun _ => Except.error "boom") (by decide) rfl rfl

/-- Claim C4: for a session with stored log `log`, the LLM is called on
exactly: the system block, then the most recent `min log.length 20`
turns in oldest-first order (the suffix `log.drop (log.length - 20)`),
then the new user message — `min log.length 20 + 2` blocks in total,
hence exactly 22 when the log is longer than 20. -/
theorem context_is_system_window_newmsg (store : Store) (sid msg : String)
    (log : List Turn) (hcell : lookupCell store sid = some (Cell.ok log)) :
    (∀ llm : List Msg → Except String String,
        chat_with_ollama store sid msg llm
          = llm ((⟨"system", persona⟩ : Msg) ::
              ((log.drop (log.length - 20)).map
                  (fun m => (⟨m.role, m.text⟩ : Msg)) ++ [⟨"user", msg⟩])))
    ∧ ((⟨"system", persona⟩ : Msg) ::
          ((log.drop (log.length - 20)).map
              (fun m => (⟨m.role, m.text⟩ : Msg)) ++ [⟨"user", msg⟩])).length
        = min log.length 20 + 2
    ∧ (20 < log.length →
        ((⟨"system", persona⟩ : Msg) ::
            ((log.drop (log.length - 20)).map
                (fun m => (⟨m.role, m.text⟩ : Msg)) ++ [⟨"user", msg⟩])).length
          = 22) := by
  refine ⟨?_, ?_, ?_⟩
  · intro llm
    simp [chat_with_ollama, get_messages, hcell, pySliceLast, buildContext]
  · simp only [List.length_cons, List.length_append, List.length_map,
      List.length_drop, List.length_nil]
    omega
  · intro h
    simp only [List.length_cons, List.length_append, List.length_map,
      List.length_drop, List.length_nil]
    omega

/-- Claim C4 (witness): a one-turn log gives a 3-block context (the LLM
observes exactly 3 blocks), and the block count matches
`min log.length 20 + 2`. -/
theorem context_is_system_window_newmsg_witness :
    chat_with_ollama [("s", Cell.ok [⟨"user", "a"⟩])] "s" "hi"
        (fun ms => if ms.length = 3 then Except.ok "three" else Except.error "other")
      = Except.ok "three"
    ∧ ((⟨"system", persona⟩ : Msg) ::
          ((([⟨"user", "a"⟩] : List Turn).drop
              (([⟨"user", "a"⟩] : List Turn).length - 20)).map
              (fun m => (⟨m.role, m.text⟩ : Msg)) ++ [⟨"user", "hi"⟩])).length
        = min ([⟨"user", "a"⟩] : List Turn).length 20 + 2 :=
  ⟨(context_is_system_window_newmsg [("s", Cell.ok [⟨"user", "a"⟩])] "s" "hi"
      [⟨"user", "a"⟩] rfl).1
      (fun ms => if ms.length = 3 then Except.ok "three" else Except.error "other"),
   (context_is_system_window_newmsg [("s", Cell.ok [⟨"user", "a"⟩])] "s" "hi"
      [⟨"user", "a"⟩] rfl).2.1⟩

/-- Claim C5: reading an unknown session id with a positive limit
returns the empty sequence, never an error; a known session returns the
most recent `min log.length limit` turns in chronological order (the
suffix of its log). -/
theorem unknown_session_empty_known_window (store : Store) (sid : String)
    (limit : Nat) (hl : 0 < limit) :
    (lookupCell store sid = none → get_messages store sid limit = .ok [])
    ∧ ∀ log : List Turn, lookupCell store sid = some (Cell.ok log) →
        get_messages store sid limit = .ok (log.drop (log.length - limit))
        ∧ (log.drop (log.length - limit)).length = min log.length limit := by
  have hne : limit ≠ 0 := by omega
  constructor
  · intro h
    simp [get_messages, h]
  · intro log h
    constructor
    · simp [get_messages, h, pySliceLast, hne]
    · simp only [List.length_drop]
      omega

/-- Claim C5 (witness): an unknown id returns `[]`; a known two-turn
session read with limit 1 returns the suffix. -/
theorem unknown_session_empty_known_window_witness :
    get_messages [("a", Cell.ok [⟨"user", "x"⟩])] "b" 5 = .ok []
    ∧ get_messages [("a", Cell.ok [⟨"user", "x"⟩, ⟨"user", "y"⟩])] "a" 1
        = .ok (([⟨"user", "x"⟩, ⟨"user", "y"⟩] : List Turn).drop
            (([⟨"user", "x"⟩, ⟨"user", "y"⟩] : List Turn).length - 1)) :=
  ⟨(unknown_session_empty_known_window [("a", Cell.ok [⟨"user", "x"⟩])] "b" 5
      (by decide)).1 rfl,
   ((unknown_session_empty_known_window
        [("a", Cell.ok [⟨"user", "x"⟩, ⟨"user", "y"⟩])] "a" 1 (by decide)).2
      [⟨"user", "x"⟩, ⟨"user", "y"⟩] rfl).1⟩

/-- Claim C7: on an empty store with no session id and message "hi", a
succeeding LLM yields the reply together with the freshly allocated
token — non-empty, of length 43 ≥ 32 for any 32 random bytes — and the
store afterwards holds exactly the user turn "hi" followed by the
assistant turn, which a subsequent read returns. -/
theorem fresh_session_two_turns (rnd : List Nat) (reply : String)
    (llm : List Msg → Except String String)
    (hlen : rnd.length = 32)
    (hllm : llm (buildContext [] "hi") = .ok reply) :
    chat [] (.ok ⟨none, some "hi"⟩) (token_urlsafe rnd) llm
      = (.ok reply (token_urlsafe rnd),
         [(token_urlsafe rnd, Cell.ok [⟨"user", "hi"⟩, ⟨"assistant", reply⟩])])
    ∧ token_urlsafe rnd ≠ ""
    ∧ 32 ≤ (token_urlsafe rnd).length
    ∧ get_messages
        [(token_urlsafe rnd, Cell.ok [⟨"user", "hi"⟩, ⟨"assistant", reply⟩])]
        (token_urlsafe rnd) 20
      = .ok [⟨"user", "hi"⟩, ⟨"assistant", reply⟩] := by
  have h43 : (token_urlsafe rnd).length = 43 := by
    rw [token_urlsafe_length, hlen]
    decide
  have hne : token_urlsafe rnd ≠ "" := by
    intro h
    rw [h] at h43
    exact absurd h43 (by decide)
  have hstrip : pyStrip "hi" = "hi" := by decide
  refine ⟨?_, hne, by omega, ?_⟩
  · simp [chat, hstrip, resolveSid, chat_with_ollama, get_messages, lookupCell,
      save_message, upsert, pySliceLast, hllm]
  · simp [get_messages, lookupCell, pySliceLast]

/-- Claim C7 (witness): the scenario with 32 zero bytes and an LLM that
replies "carrot". -/
theorem fresh_session_two_turns_witness :
    chat [] (.ok ⟨none, some "hi"⟩) (token_urlsafe (List.replicate 32 0))
        (fun _ => Except.ok "carrot")
      = (.ok "carrot" (token_urlsafe (List.replicate 32 0)),
         [(token_urlsafe (List.replicate 32 0),
           Cell.ok [⟨"user", "hi"⟩, ⟨"assistant", "carrot"⟩])])
    ∧ token_urlsafe (List.replicate 32 0) ≠ ""
    ∧ 32 ≤ (token_urlsafe (List.replicate 32 0)).length
    ∧ get_messages
        [(token_urlsafe (List.replicate 32 0),
          Cell.ok [⟨"user", "hi"⟩, ⟨"assistant", "carrot"⟩])]
        (token_urlsafe (List.replicate 32 0)) 20
      = .ok [⟨"user", "hi"⟩, ⟨"assistant", "carrot"⟩] :=
  fresh_session_two_turns (List.replicate 32 0) "carrot"
    (fun _ => Except.ok "carrot") (by decide) rfl

/-- Claim C8 (counterexample): a malformed request body reaches the
outer `except Exception` handler, which surfaces the RAW exception text
as the 500 detail — so raw internal exception text does leak to the
caller on that path. -/
theorem raw_exception_text_in_500_detail :
    (chat [] (.error "Expecting value: line 2 column 1 (char 1)") "nid"
        (fun _ => .ok "r")).1
      = .serverError "Expecting value: line 2 column 1 (char 1)" := rfl

/-- Claim C8 (amended): client-input errors get the fixed rejection
"message required"; an LLM-collaborator failure gets the fixed
in-character fallback reply, independent of the error's text; but errors
reaching the outer 500 handler carry the raw exception text as the
response detail — only the fallback path is leak-free. -/
theorem error_response_shapes :
    (∀ (store : Store) (sidOpt : Option String) (msgOpt : Option String)
        (nid : String) (llm : List Msg → Except String String),
        pyStrip (msgOpt.getD "") = "" →
        (chat store (.ok ⟨sidOpt, msgOpt⟩) nid llm).1
          = .clientError "message required")
    ∧ (∀ (store : Store) (sidOpt : Option String) (msg nid e : String),
        pyStrip msg ≠ "" →
        (chat store (.ok ⟨sidOpt, some msg⟩) nid (fun _ => .error e)).1
          = .ok fallbackReply (resolveSid sidOpt nid))
    ∧ (∀ (store : Store) (e nid : String)
        (llm : List Msg → Except String String),
        (chat store (.error e) nid llm).1 = .serverError e) := by
  refine ⟨?_, ?_, ?_⟩
  · intro store sidOpt msgOpt nid llm h
    simp [chat, h]
  · intro store sidOpt msg nid e h
    cases hg : get_messages store (resolveSid sidOpt nid) 20 with
    | error e2 => simp [chat, h, chat_with_ollama, hg]
    | ok mem => simp [chat, h, chat_with_ollama, hg]
  · intro store e nid llm
    rfl

/-- Claim C8 (amended, witness): the three shapes at concrete inputs. -/
theorem error_response_shapes_witness :
    (chat [] (.ok ⟨none, some " "⟩) "n" (fun _ => .ok "r")).1
      = .clientError "message required"
    ∧ (chat [] (.ok ⟨some "s", some "hi"⟩) "n" (fun _ => .error "boom")).1
        = .ok fallbackReply (resolveSid (some "s") "n")
    ∧ (chat [] (.error "oops") "n" (fun _ => .ok "r")).1
        = .serverError "oops" :=
  ⟨error_response_shapes.1 [] none (some " ") "n" (fun _ => .ok "r") (by decide),
   error_response_shapes.2.1 [] (some "s") "hi" "n" "boom" (by decide),
   error_response_shapes.2.2 [] "oops" "n" (fun _ => .ok "r")⟩
